import Mathlib

/-!
Shallow embedding of the nano-geometry toolkit (`src/nano/geometry.h`).

Floating-point component types are modelled by the rationals `ℚ` with exact
arithmetic; the machine epsilon of the concrete floating type is abstracted
as an explicit parameter `eps` wherever the source uses
`std::numeric_limits<ftype>::epsilon()`.  Integral component types are
modelled by `ℤ`.  Member functions become Lean functions on the structures,
keeping their source names.
-/

namespace nano

/-- `nano::fcompare(a, b)` (geometry.h, lines 153-164): tolerant equality for
floating-point values.  `eps` stands for `std::numeric_limits<ftype>::epsilon()`.
The source computes `dt = |a - b|` and returns
`dt <= t || dt < max(|a|, |b|) * t`. -/
def fcompare (eps a b : ℚ) : Bool :=
  decide (|a - b| ≤ eps) || decide (|a - b| < max |a| |b| * eps)

/-- `nano::point<T>` for floating-point `T`, modelled over `ℚ`. -/
structure point where
  x : ℚ
  y : ℚ
deriving DecidableEq, Repr

namespace point

/-- `point::operator==` for floating-point `T`: `fcompare` on both components. -/
def eqB (eps : ℚ) (p q : point) : Bool :=
  fcompare eps p.x q.x && fcompare eps p.y q.y

/-- `point::operator<`: `x < pt.x && y < pt.y`. -/
def ltB (p q : point) : Bool :=
  decide (p.x < q.x) && decide (p.y < q.y)

/-- `point::operator<=`: `x <= pt.x && y <= pt.y`. -/
def leB (p q : point) : Bool :=
  decide (p.x ≤ q.x) && decide (p.y ≤ q.y)

/-- `point::operator>`: `x > pt.x && y > pt.y`. -/
def gtB (p q : point) : Bool :=
  decide (p.x > q.x) && decide (p.y > q.y)

/-- `point::operator>=`: `x >= pt.x && y >= pt.y`. -/
def geB (p q : point) : Bool :=
  decide (p.x ≥ q.x) && decide (p.y ≥ q.y)

/-- `point::operator-()` (unary negation): `{ -x, -y }`. -/
def neg (p : point) : point := ⟨-p.x, -p.y⟩

end point

/-- `nano::size<T>` for floating-point `T`, modelled over `ℚ`. -/
structure size where
  width : ℚ
  height : ℚ
deriving DecidableEq, Repr

/-- `nano::rect<T>` for floating-point `T`, modelled over `ℚ`.  The C++ type
stores `origin`/`size` and `x`/`y`/`width`/`height` as the same memory through
a union; here the four scalars are the single source of truth. -/
structure rect where
  x : ℚ
  y : ℚ
  width : ℚ
  height : ℚ
deriving DecidableEq, Repr

namespace rect

/-- `rect::left()`: `x`. -/
def left (r : rect) : ℚ := r.x

/-- `rect::right()`: `x + width`. -/
def right (r : rect) : ℚ := r.x + r.width

/-- `rect::top()`: `y`. -/
def top (r : rect) : ℚ := r.y

/-- `rect::bottom()`: `y + height`. -/
def bottom (r : rect) : ℚ := r.y + r.height

/-- `rect::top_left()`: the origin. -/
def top_left (r : rect) : point := ⟨r.x, r.y⟩

/-- `rect::top_right()`: `{ x + width, y }`. -/
def top_right (r : rect) : point := ⟨r.x + r.width, r.y⟩

/-- `rect::bottom_left()`: `{ x, y + height }`. -/
def bottom_left (r : rect) : point := ⟨r.x, r.y + r.height⟩

/-- `rect::bottom_right()`: `{ x + width, y + height }`. -/
def bottom_right (r : rect) : point := ⟨r.x + r.width, r.y + r.height⟩

/-- `rect::middle()` (geometry.h, line 1856): `{ x + width * 0.5, y + height * 0.5 }`. -/
def middle (r : rect) : point := ⟨r.x + r.width * (1 / 2), r.y + r.height * (1 / 2)⟩

/-- `rect::middle_left()` (geometry.h, line 1862): `{ x, y + height * 0.5 }`. -/
def middle_left (r : rect) : point := ⟨r.x, r.y + r.height * (1 / 2)⟩

/-- `rect::middle_right()` (geometry.h, line 1867): `{ x + width, y + height * 0.5 }`. -/
def middle_right (r : rect) : point := ⟨r.x + r.width, r.y + r.height * (1 / 2)⟩

/-- `rect::middle_top()` (geometry.h, lines 1871-1874): the source returns
`{ static_cast<value_type>(x * 0.5), y }` — the x component is `x * 0.5`,
with no `x +` and no use of `width`. -/
def middle_top (r : rect) : point := ⟨r.x * (1 / 2), r.y⟩

/-- `rect::middle_bottom()` (geometry.h, lines 1876-1879): the source returns
`{ static_cast<value_type>(x * 0.5), y + height }`. -/
def middle_bottom (r : rect) : point := ⟨r.x * (1 / 2), r.y + r.height⟩

/-- `rect::operator==` for floating-point `T`: `fcompare` on all four fields. -/
def eqB (eps : ℚ) (r s : rect) : Bool :=
  fcompare eps r.x s.x && fcompare eps r.y s.y &&
    fcompare eps r.width s.width && fcompare eps r.height s.height

/-- `rect::contains(point)` (geometry.h, lines 1939-1942):
`pos.x >= x && pos.x <= x + width && pos.y >= y && pos.y <= y + height`. -/
def contains (r : rect) (pos : point) : Bool :=
  decide (pos.x ≥ r.x) && decide (pos.x ≤ r.x + r.width) &&
    decide (pos.y ≥ r.y) && decide (pos.y ≤ r.y + r.height)

/-- `rect::reduced(pt)` (geometry.h, lines 1953-1957):
`{ x + pt.x, y + pt.y, width - 2 * pt.x, height - 2 * pt.y }`. -/
def reduced (r : rect) (pt : point) : rect :=
  ⟨r.x + pt.x, r.y + pt.y, r.width - 2 * pt.x, r.height - 2 * pt.y⟩

/-- `rect::expanded(pt)` (geometry.h, lines 1968-1972):
`{ x - pt.x, y - pt.y, width + 2 * pt.x, height + 2 * pt.y }`. -/
def expanded (r : rect) (pt : point) : rect :=
  ⟨r.x - pt.x, r.y - pt.y, r.width + 2 * pt.x, r.height + 2 * pt.y⟩

/-- `rect::intersects(rect)` (geometry.h, lines 1974-1978):
`(min(right(), r.right()) - max(x, r.x)) > 0 && (min(bottom(), r.bottom()) - max(y, r.y)) > 0`. -/
def intersects (r s : rect) : Bool :=
  decide (0 < min r.right s.right - max r.x s.x) &&
    decide (0 < min r.bottom s.bottom - max r.y s.y)

/-- `rect::intersection(rhs)` (geometry.h, lines 2013-2030): computes
`nx = max(x, rhs.x)`, `nw = min(right(), rhs.right()) - nx`, returns
`{0,0,0,0}` if `nw < 0`; then `ny = max(y, rhs.y)`,
`nh = min(bottom(), rhs.bottom()) - ny`, returns `{0,0,0,0}` if `nh < 0`;
otherwise `{nx, ny, nw, nh}` (the source's `let`-bound locals are written
out in place). -/
def intersection (r rhs : rect) : rect :=
  if min r.right rhs.right - max r.x rhs.x < 0 then ⟨0, 0, 0, 0⟩
  else if min r.bottom rhs.bottom - max r.y rhs.y < 0 then ⟨0, 0, 0, 0⟩
  else
    ⟨max r.x rhs.x, max r.y rhs.y,
     min r.right rhs.right - max r.x rhs.x,
     min r.bottom rhs.bottom - max r.y rhs.y⟩

/-- `rect::with_size(s)` (geometry.h, lines 1781-1784): `rect(origin, s)`. -/
def with_size (r : rect) (s : size) : rect := ⟨r.x, r.y, s.width, s.height⟩

/-- `rect::get_fitted_rect(r)` (geometry.h, lines 2032-2042): branches on
`width < height` and returns `r.with_size` of a same-aspect size.  The source
divides in `double`; here the division is exact over `ℚ` (the value of the
quotient is irrelevant to which fields of `r` are replaced). -/
def get_fitted_rect (r0 r : rect) : rect :=
  if r0.width < r0.height then
    r.with_size ⟨r0.width, r.height / r.width * r0.width⟩
  else
    r.with_size ⟨r.width / r.height * r0.height, r0.height⟩

end rect

/-- `nano::point<T>` for an integral `T`, modelled over `ℤ` (values are exact,
equality is exact). -/
structure pointZ where
  x : ℤ
  y : ℤ
deriving DecidableEq, Repr

/-- `nano::rect<T>` for an integral `T`, modelled over `ℤ`. -/
structure rectZ where
  x : ℤ
  y : ℤ
  width : ℤ
  height : ℤ
deriving DecidableEq, Repr

namespace rectZ

/-- `rect::reduced(pt)` instantiated at an integral component type. -/
def reduced (r : rectZ) (pt : pointZ) : rectZ :=
  ⟨r.x + pt.x, r.y + pt.y, r.width - 2 * pt.x, r.height - 2 * pt.y⟩

/-- `rect::expanded(pt)` instantiated at an integral component type. -/
def expanded (r : rectZ) (pt : pointZ) : rectZ :=
  ⟨r.x - pt.x, r.y - pt.y, r.width + 2 * pt.x, r.height + 2 * pt.y⟩

end rectZ

/-- `nano::transform<T>` (floating-point only): six coefficients of the
augmented matrix `[a b tx; c d ty; 0 0 1]` documented at geometry.h
lines 2477-2479. -/
structure transform where
  a : ℚ
  b : ℚ
  c : ℚ
  d : ℚ
  tx : ℚ
  ty : ℚ
deriving DecidableEq, Repr

namespace transform

/-- `transform::identity()`: `(1, 0, 0, 1, 0, 0)`. -/
def identity : transform := ⟨1, 0, 0, 1, 0, 0⟩

/-- `transform::translation(p)` (geometry.h, lines 2480-2489):
`(1, 0, 0, 1, p.x, p.y)`. -/
def translation (p : point) : transform := ⟨1, 0, 0, 1, p.x, p.y⟩

/-- `transform::scale(s)`: `(s.width, 0, 0, s.height, 0, 0)`. -/
def scale (s : size) : transform := ⟨s.width, 0, 0, s.height, 0, 0⟩

/-- `transform::operator*(transform)` (geometry.h, lines 2554-2564):
```
{ a * t.a + b * t.c, a * t.b + b * t.d,
  c * t.a + d * t.c, c * t.b + d * t.d,
  tx + a * t.tx + b * t.ty, ty + c * t.tx + d * t.ty }
``` -/
def mul (s t : transform) : transform :=
  ⟨s.a * t.a + s.b * t.c, s.a * t.b + s.b * t.d,
   s.c * t.a + s.d * t.c, s.c * t.b + s.d * t.d,
   s.tx + s.a * t.tx + s.b * t.ty, s.ty + s.c * t.tx + s.d * t.ty⟩

/-- `transform::operator+(point)` (geometry.h, lines 2566-2576):
`{ a, b, c, d, tx + a * p.x + b * p.y, ty + c * p.x + d * p.y }`. -/
def addPoint (t : transform) (p : point) : transform :=
  ⟨t.a, t.b, t.c, t.d, t.tx + t.a * p.x + t.b * p.y, t.ty + t.c * p.x + t.d * p.y⟩

/-- `transform::apply(point)` (geometry.h, lines 2615-2618):
`{ a * p.x + c * p.y + tx, b * p.x + d * p.y + ty }`. -/
def apply (t : transform) (p : point) : point :=
  ⟨t.a * p.x + t.c * p.y + t.tx, t.b * p.x + t.d * p.y + t.ty⟩

end transform

end nano

open nano

/-- C1: the claim `(t1*t2).apply(p) == t1.apply(t2.apply(p))` fails on the
code: at `t1 = (1,2,3,4,5,6)`, `t2 = (7,8,9,10,11,12)`, `p = (13,14)` the
composed transform maps `p` to `(1163, 1347)` while applying `t2` then `t1`
gives `(1001, 1486)`.  (`operator*` multiplies in the layout of the documented
augmented matrix `[a b tx; c d ty]`, but `apply` reads the coefficients as
`a*x + c*y + tx`, transposing the linear part.) -/
theorem c1_compose_apply_mismatch :
    transform.apply
        (transform.mul ⟨1, 2, 3, 4, 5, 6⟩ ⟨7, 8, 9, 10, 11, 12⟩) ⟨13, 14⟩
      = ⟨1163, 1347⟩ ∧
    transform.apply ⟨1, 2, 3, 4, 5, 6⟩
        (transform.apply ⟨7, 8, 9, 10, 11, 12⟩ ⟨13, 14⟩)
      = ⟨1001, 1486⟩ ∧
    transform.apply
        (transform.mul ⟨1, 2, 3, 4, 5, 6⟩ ⟨7, 8, 9, 10, 11, 12⟩) ⟨13, 14⟩
      ≠ transform.apply ⟨1, 2, 3, 4, 5, 6⟩
        (transform.apply ⟨7, 8, 9, 10, 11, 12⟩ ⟨13, 14⟩) := by
  refine ⟨?_, ?_, ?_⟩ <;>
    norm_num [transform.mul, transform.apply, point.mk.injEq]

/-- C2: two rects with no common point (under the closed-interval `contains`)
intersect to the zero rect `{0,0,0,0}`. -/
theorem c2_disjoint_intersection_zero (r1 r2 : nano.rect)
    (h : ∀ p : nano.point,
      ¬(rect.contains r1 p = true ∧ rect.contains r2 p = true)) :
    rect.intersection r1 r2 = ⟨0, 0, 0, 0⟩ := by
  by_cases hw : min r1.right r2.right - max r1.x r2.x < 0
  · simp [rect.intersection, hw]
  · by_cases hh : min r1.bottom r2.bottom - max r1.y r2.y < 0
    · simp [rect.intersection, hw, hh]
    · exfalso
      push_neg at hw hh
      have hx : max r1.x r2.x ≤ min (r1.x + r1.width) (r2.x + r2.width) := by
        have := sub_nonneg.mp hw
        simpa [rect.right] using this
      have hy : max r1.y r2.y ≤ min (r1.y + r1.height) (r2.y + r2.height) := by
        have := sub_nonneg.mp hh
        simpa [rect.bottom] using this
      refine h ⟨max r1.x r2.x, max r1.y r2.y⟩ ⟨?_, ?_⟩
      · simp only [rect.contains, Bool.and_eq_true, decide_eq_true_eq,
          ge_iff_le]
        exact ⟨⟨⟨le_max_left _ _, hx.trans (min_le_left _ _)⟩,
          le_max_left _ _⟩, hy.trans (min_le_left _ _)⟩
      · simp only [rect.contains, Bool.and_eq_true, decide_eq_true_eq,
          ge_iff_le]
        exact ⟨⟨⟨le_max_right _ _, hx.trans (min_le_right _ _)⟩,
          le_max_right _ _⟩, hy.trans (min_le_right _ _)⟩

/-- Witness for C2 at the concrete disjoint pair `{0,0,1,1}` and `{5,5,1,1}`. -/
theorem c2_disjoint_intersection_zero_witness :
    (∀ p : nano.point,
      ¬(rect.contains ⟨0, 0, 1, 1⟩ p = true ∧
        rect.contains ⟨5, 5, 1, 1⟩ p = true)) ∧
    rect.intersection ⟨0, 0, 1, 1⟩ ⟨5, 5, 1, 1⟩ = ⟨0, 0, 0, 0⟩ := by
  have h : ∀ p : nano.point,
      ¬(rect.contains ⟨0, 0, 1, 1⟩ p = true ∧
        rect.contains ⟨5, 5, 1, 1⟩ p = true) := by
    intro p hp
    obtain ⟨h1, h2⟩ := hp
    simp only [rect.contains, Bool.and_eq_true, decide_eq_true_eq,
      ge_iff_le] at h1 h2
    have hu : p.x ≤ 0 + 1 := h1.1.1.2
    have hl : (5 : ℚ) ≤ p.x := h2.1.1.1
    linarith
  exact ⟨h, c2_disjoint_intersection_zero _ _ h⟩

/-- C3: `fcompare(a, b)` returns true iff `|a-b| <= eps` or
`|a-b| < max(|a|,|b|) * eps`, and in particular returns true whenever
`|a-b| <= eps`. -/
theorem c3_fcompare_tolerance (eps a b : ℚ) :
    (fcompare eps a b = true ↔
      (|a - b| ≤ eps ∨ |a - b| < max |a| |b| * eps)) ∧
    (|a - b| ≤ eps → fcompare eps a b = true) := by
  constructor
  · simp [fcompare]
  · intro h
    simp [fcompare, h]

/-- Witness for C3 at `eps = 1/2`, `a = 1`, `b = 5/4` (so `|a-b| = 1/4 ≤ eps`). -/
theorem c3_fcompare_tolerance_witness : fcompare (1 / 2) 1 (5 / 4) = true :=
  (c3_fcompare_tolerance (1 / 2) 1 (5 / 4)).2 (by norm_num [abs_le])

/-- C4: on the rect `{2,3,10,4}` the code's `middle_top` returns `(1, 3)` and
`middle_bottom` returns `(1, 7)` (the x component is `x * 0.5`), not the
claimed edge midpoints `(x + width/2, y) = (7, 3)` and
`(x + width/2, y + height) = (7, 7)`. -/
theorem c4_middle_top_bottom_mismatch :
    rect.middle_top ⟨2, 3, 10, 4⟩ = ⟨1, 3⟩ ∧
    rect.middle_bottom ⟨2, 3, 10, 4⟩ = ⟨1, 7⟩ ∧
    rect.middle_top ⟨2, 3, 10, 4⟩ ≠ ⟨2 + 10 / 2, 3⟩ ∧
    rect.middle_bottom ⟨2, 3, 10, 4⟩ ≠ ⟨2 + 10 / 2, 3 + 4⟩ := by
  refine ⟨?_, ?_, ?_, ?_⟩ <;>
    norm_num [rect.middle_top, rect.middle_bottom, point.mk.injEq]

/-- C5: `r1.intersects(r2)` is true iff the overlap width
`min(r1.right, r2.right) - max(r1.left, r2.left)` and the overlap height
`min(r1.bottom, r2.bottom) - max(r1.top, r2.top)` are both strictly
positive; touching edges (zero overlap) do not intersect. -/
theorem c5_intersects_iff_positive_overlap (r1 r2 : nano.rect) :
    rect.intersects r1 r2 = true ↔
      (0 < min (rect.right r1) (rect.right r2) -
        max (rect.left r1) (rect.left r2) ∧
       0 < min (rect.bottom r1) (rect.bottom r2) -
        max (rect.top r1) (rect.top r2)) := by
  simp [rect.intersects, rect.left, rect.top]

/-- C6: a rect with non-negative width and height contains its top-left and
bottom-right corners, and `contains` is the closed-interval check
`x ∈ [left, right] ∧ y ∈ [top, bottom]`. -/
theorem c6_contains_corners_closed (r : nano.rect)
    (hw : 0 ≤ r.width) (hh : 0 ≤ r.height) :
    rect.contains r (rect.top_left r) = true ∧
    rect.contains r (rect.bottom_right r) = true ∧
    ∀ p : nano.point, (rect.contains r p = true ↔
      (rect.left r ≤ p.x ∧ p.x ≤ rect.right r ∧
       rect.top r ≤ p.y ∧ p.y ≤ rect.bottom r)) := by
  refine ⟨?_, ?_, fun p => ?_⟩
  · simp only [rect.contains, rect.top_left, Bool.and_eq_true,
      decide_eq_true_eq, ge_iff_le]
    exact ⟨⟨⟨le_refl _, by linarith⟩, le_refl _⟩, by linarith⟩
  · simp only [rect.contains, rect.bottom_right, Bool.and_eq_true,
      decide_eq_true_eq, ge_iff_le]
    exact ⟨⟨⟨by linarith, le_refl _⟩, by linarith⟩, le_refl _⟩
  · simp only [rect.contains, rect.left, rect.right, rect.top, rect.bottom,
      Bool.and_eq_true, decide_eq_true_eq, ge_iff_le]
    tauto

/-- Witness for C6 at the rect `{0,0,2,3}`. -/
theorem c6_contains_corners_closed_witness :
    0 ≤ (rect.mk 0 0 2 3).width ∧ 0 ≤ (rect.mk 0 0 2 3).height ∧
    rect.contains ⟨0, 0, 2, 3⟩ (rect.top_left ⟨0, 0, 2, 3⟩) = true ∧
    rect.contains ⟨0, 0, 2, 3⟩ (rect.bottom_right ⟨0, 0, 2, 3⟩) = true := by
  have h := c6_contains_corners_closed ⟨0, 0, 2, 3⟩ (by norm_num) (by norm_num)
  exact ⟨by norm_num, by norm_num, h.1, h.2.1⟩

/-- C7: `r.reduced(p).expanded(p) == r` — exactly over the integral model,
and under the `fcompare`-based rect equality (any tolerance `0 ≤ eps`) over
the floating-point model. -/
theorem c7_reduced_expanded_inverse :
    (∀ (r : rectZ) (p : pointZ), rectZ.expanded (rectZ.reduced r p) p = r) ∧
    (∀ (eps : ℚ) (r : nano.rect) (p : nano.point), 0 ≤ eps →
      rect.eqB eps (rect.expanded (rect.reduced r p) p) r = true) := by
  constructor
  · intro r p
    obtain ⟨rx, ry, rw, rh⟩ := r
    obtain ⟨px, py⟩ := p
    simp only [rectZ.reduced, rectZ.expanded, rectZ.mk.injEq]
    refine ⟨by ring, by ring, by ring, by ring⟩
  · intro eps r p heps
    have h : rect.expanded (rect.reduced r p) p = r := by
      obtain ⟨rx, ry, rw, rh⟩ := r
      obtain ⟨px, py⟩ := p
      simp only [rect.reduced, rect.expanded, rect.mk.injEq]
      refine ⟨by ring, by ring, by ring, by ring⟩
    rw [h]
    simp [rect.eqB, fcompare, heps]

/-- Witness for C7 at the rect `{1,2,3,4}`, point `(5,6)` and `eps = 0`. -/
theorem c7_reduced_expanded_inverse_witness :
    rectZ.expanded (rectZ.reduced ⟨1, 2, 3, 4⟩ ⟨5, 6⟩) ⟨5, 6⟩ = ⟨1, 2, 3, 4⟩ ∧
    (0 ≤ (0 : ℚ) ∧
      rect.eqB 0 (rect.expanded (rect.reduced ⟨1, 2, 3, 4⟩ ⟨5, 6⟩) ⟨5, 6⟩)
        ⟨1, 2, 3, 4⟩ = true) :=
  ⟨c7_reduced_expanded_inverse.1 ⟨1, 2, 3, 4⟩ ⟨5, 6⟩,
    le_refl 0, c7_reduced_expanded_inverse.2 0 ⟨1, 2, 3, 4⟩ ⟨5, 6⟩ (le_refl 0)⟩

/-- C8: the point relations `<, <=, >, >=` hold iff the relation holds on both
components, and `<` is only a partial order: some pair of points satisfies
neither `p < q` nor `q < p` nor `p == q` (for any tolerance `eps < 1`). -/
theorem c8_point_partial_order (eps : ℚ) (h : eps < 1) :
    (∀ p q : nano.point, (point.ltB p q = true ↔ p.x < q.x ∧ p.y < q.y)) ∧
    (∀ p q : nano.point, (point.leB p q = true ↔ p.x ≤ q.x ∧ p.y ≤ q.y)) ∧
    (∀ p q : nano.point, (point.gtB p q = true ↔ q.x < p.x ∧ q.y < p.y)) ∧
    (∀ p q : nano.point, (point.geB p q = true ↔ q.x ≤ p.x ∧ q.y ≤ p.y)) ∧
    ∃ p q : nano.point, point.ltB p q = false ∧ point.ltB q p = false ∧
      point.eqB eps p q = false := by
  refine ⟨fun p q => by simp [point.ltB], fun p q => by simp [point.leB],
    fun p q => by simp [point.gtB], fun p q => by simp [point.geB],
    ⟨0, 1⟩, ⟨1, 0⟩, by norm_num [point.ltB], by norm_num [point.ltB], ?_⟩
  have h1 : fcompare eps 0 1 = false := by
    simp only [fcompare, Bool.or_eq_false_iff, decide_eq_false_iff_not,
      not_le, not_lt]
    constructor
    · simpa using h
    · simp only [abs_zero, abs_one, max_eq_right (le_of_lt one_pos),
        one_mul]
      simpa using le_of_lt h
  simp [point.eqB, h1]

/-- Witness for C8 at `eps = 1/2`. -/
theorem c8_point_partial_order_witness :
    (1 / 2 : ℚ) < 1 ∧
    ((∀ p q : nano.point,
        (point.ltB p q = true ↔ p.x < q.x ∧ p.y < q.y)) ∧
     (∀ p q : nano.point,
        (point.leB p q = true ↔ p.x ≤ q.x ∧ p.y ≤ q.y)) ∧
     (∀ p q : nano.point,
        (point.gtB p q = true ↔ q.x < p.x ∧ q.y < p.y)) ∧
     (∀ p q : nano.point,
        (point.geB p q = true ↔ q.x ≤ p.x ∧ q.y ≤ p.y)) ∧
     ∃ p q : nano.point, point.ltB p q = false ∧ point.ltB q p = false ∧
       point.eqB (1 / 2) p q = false) :=
  ⟨by norm_num, c8_point_partial_order (1 / 2) (by norm_num)⟩

/-- C9: `t + p` equals `t * transform::translation(p)` — the linear
coefficients are unchanged and the translation becomes
`tx + a*p.x + b*p.y`, `ty + c*p.x + d*p.y`; it is not simple vector addition
of `(tx, ty)`. -/
theorem c9_add_point_precomposition (t : nano.transform) (p : nano.point) :
    transform.addPoint t p = transform.mul t (transform.translation p) ∧
    (transform.addPoint t p).a = t.a ∧ (transform.addPoint t p).b = t.b ∧
    (transform.addPoint t p).c = t.c ∧ (transform.addPoint t p).d = t.d ∧
    (transform.addPoint t p).tx = t.tx + t.a * p.x + t.b * p.y ∧
    (transform.addPoint t p).ty = t.ty + t.c * p.x + t.d * p.y ∧
    ∃ (s : nano.transform) (q : nano.point),
      (transform.addPoint s q).tx ≠ s.tx + q.x := by
  have h1 : transform.addPoint t p = transform.mul t (transform.translation p) := by
    simp only [transform.addPoint, transform.mul, transform.translation,
      transform.mk.injEq]
    refine ⟨by ring, by ring, by ring, by ring, by ring, by ring⟩
  exact ⟨h1, rfl, rfl, rfl, rfl, rfl, rfl,
    ⟨2, 0, 0, 1, 0, 0⟩, ⟨1, 0⟩, by norm_num [transform.addPoint]⟩

/-- C10: `r0.get_fitted_rect(r)` keeps `r`'s origin unchanged in both
branches; only the size components are replaced. -/
theorem c10_fitted_rect_keeps_origin (r0 r : nano.rect) :
    (rect.get_fitted_rect r0 r).x = r.x ∧
    (rect.get_fitted_rect r0 r).y = r.y := by
  unfold rect.get_fitted_rect
  split <;> exact ⟨rfl, rfl⟩

